import Mathlib

/-!
# tinyGPUlang: AST nodes, visitor dispatch and the diagnostic printer

A shallow embedding of `src/tinyGPUlang/ast.cpp`.

* The class hierarchy rooted at `ASTNode` becomes a family of mutually
  inductive types: one record type per C++ class that carries data, and the sum
  type `ASTNode` whose constructor is the dynamic type of the object behind an
  `ASTNodePtr`.
* `shared_ptr` members are owned children.  A member is modelled as nullable
  (`Option`) exactly where the source tests it for null
  (`KernelNode::return_value`, line 346); every other pointer is non-null.
* The process-wide identifier generator is threaded explicitly as a state `G`
  together with its step function `generate_uuid`.
* `std::stringstream`/`std::string` values are `String`s; `<<` and `append` are
  `++`.
* A dereference of a null pointer ends the run in `Visit.nullDeref`, carrying
  the printer state reached at that point.
-/

namespace TinyGPULang

/-! ## Declarations of `ast.hpp` / `core.hpp` -/

/-- Modelled from the spec: `core.hpp` is not part of the sources.  The value
returned by `GlobalUUIDGenerator::generate_uuid()` and stored in
`ASTNode::ast_id`; "a globally unique token" (a counter value or a
random wide token), here a natural number. -/
abbrev Identifier := Nat

/-- Modelled from the spec: the enum `VariableType` of `ast.hpp` (not part of
the sources), "`kind`: SCALAR | TENSOR". -/
inductive VariableType where
  | SCALAR
  | TENSOR
deriving DecidableEq, Repr

/-- Modelled from the spec: the enum `DataType` of `ast.hpp` (not part of the
sources), "`elementType`: FLOAT32 | FLOAT16". -/
inductive DataType where
  | FLOAT32
  | FLOAT16
deriving DecidableEq, Repr

/-- Modelled from the spec: the enum `KernelScope` of `ast.hpp` (not part of
the sources), "`scope`: GLOBAL | DEVICE". -/
inductive KernelScope where
  | GLOBAL
  | DEVICE
deriving DecidableEq, Repr

/-- The class `ScalarNode`: the members of `ASTNode` (`ast_id`) and of
`VariableNode` (`vtype`, `dtype`, `name`). -/
structure ScalarNode where
  ast_id : Identifier
  vtype : VariableType
  dtype : DataType
  name : String
deriving DecidableEq, Repr

/-- The class `TensorNode`: the members of `VariableNode` and `shape`
(`std::vector<int>`). -/
structure TensorNode where
  ast_id : Identifier
  vtype : VariableType
  dtype : DataType
  name : String
  shape : List Int
deriving DecidableEq, Repr

/-- What a non-null `VariableNodePtr` points to: an object of one of the two
concrete subclasses of `VariableNode`. -/
inductive VariableNode where
  | scalar (n : ScalarNode)
  | tensor (n : TensorNode)
deriving DecidableEq, Repr

mutual

/-- The class `KernelNode`.  `return_value` is the one pointer the source
tests for null; `body` is the member the printer iterates over (it is not a
constructor parameter). -/
inductive KernelNode where
  | mk (ast_id : Identifier) (name : String) (scope : KernelScope)
      (arguments : List VariableNode) (return_value : Option VariableNode)
      (body : List ASTNode)

/-- The class `KernelCallNode`. -/
inductive KernelCallNode where
  | mk (ast_id : Identifier) (kernel : KernelNode) (arguments : List VariableNode)

/-- The class `BinaryNode`, base of `AddNode`, `SubNode`, `MulNode`, `DivNode`,
none of which adds a member. -/
inductive BinaryNode where
  | mk (ast_id : Identifier) (lhs rhs : ASTNode)

/-- The class `UnaryNode`, base of `SqrtNode`, `Log2Node`, `Exp2Node`. -/
inductive UnaryNode where
  | mk (ast_id : Identifier) (x : ASTNode)

/-- The class `AssignmentNode`. -/
inductive AssignmentNode where
  | mk (ast_id : Identifier) (trg src : ASTNode)

/-- The class `AliasNode`. -/
inductive AliasNode where
  | mk (ast_id : Identifier) (src : ASTNode)

/-- The class `ReturnNode`. -/
inductive ReturnNode where
  | mk (ast_id : Identifier) (return_value : ASTNode)

/-- What a non-null `ASTNodePtr` points to: an object whose dynamic type is
one of the fourteen concrete classes. -/
inductive ASTNode where
  | scalar (n : ScalarNode)
  | tensor (n : TensorNode)
  | kernel (n : KernelNode)
  | kernelCall (n : KernelCallNode)
  | add (n : BinaryNode)
  | sub (n : BinaryNode)
  | mul (n : BinaryNode)
  | div (n : BinaryNode)
  | sqrt (n : UnaryNode)
  | log2 (n : UnaryNode)
  | exp2 (n : UnaryNode)
  | assignment (n : AssignmentNode)
  | alias (n : AliasNode)
  | ret (n : ReturnNode)

end

/-! ## Member access -/

/-- Member `ast_id` through a `VariableNodePtr`. -/
def VariableNode.ast_id : VariableNode → Identifier
  | .scalar n => n.ast_id
  | .tensor n => n.ast_id

/-- The implicit conversion `VariableNodePtr → ASTNodePtr`. -/
def VariableNode.toASTNode : VariableNode → ASTNode
  | .scalar n => .scalar n
  | .tensor n => .tensor n

def KernelNode.ast_id : KernelNode → Identifier
  | .mk ast_id _ _ _ _ _ => ast_id

def KernelNode.name : KernelNode → String
  | .mk _ name _ _ _ _ => name

def KernelNode.scope : KernelNode → KernelScope
  | .mk _ _ scope _ _ _ => scope

def KernelNode.arguments : KernelNode → List VariableNode
  | .mk _ _ _ arguments _ _ => arguments

def KernelNode.return_value : KernelNode → Option VariableNode
  | .mk _ _ _ _ return_value _ => return_value

def KernelNode.body : KernelNode → List ASTNode
  | .mk _ _ _ _ _ body => body

def KernelCallNode.ast_id : KernelCallNode → Identifier
  | .mk ast_id _ _ => ast_id

def KernelCallNode.kernel : KernelCallNode → KernelNode
  | .mk _ kernel _ => kernel

def KernelCallNode.arguments : KernelCallNode → List VariableNode
  | .mk _ _ arguments => arguments

def BinaryNode.ast_id : BinaryNode → Identifier
  | .mk ast_id _ _ => ast_id

def BinaryNode.lhs : BinaryNode → ASTNode
  | .mk _ lhs _ => lhs

def BinaryNode.rhs : BinaryNode → ASTNode
  | .mk _ _ rhs => rhs

def UnaryNode.ast_id : UnaryNode → Identifier
  | .mk ast_id _ => ast_id

def UnaryNode.x : UnaryNode → ASTNode
  | .mk _ x => x

def AssignmentNode.ast_id : AssignmentNode → Identifier
  | .mk ast_id _ _ => ast_id

def AssignmentNode.trg : AssignmentNode → ASTNode
  | .mk _ trg _ => trg

def AssignmentNode.src : AssignmentNode → ASTNode
  | .mk _ _ src => src

def AliasNode.ast_id : AliasNode → Identifier
  | .mk ast_id _ => ast_id

def AliasNode.src : AliasNode → ASTNode
  | .mk _ src => src

def ReturnNode.ast_id : ReturnNode → Identifier
  | .mk ast_id _ => ast_id

def ReturnNode.return_value : ReturnNode → ASTNode
  | .mk _ return_value => return_value

/-- Member `ast_id` through an `ASTNodePtr`. -/
def ASTNode.ast_id : ASTNode → Identifier
  | .scalar n => n.ast_id
  | .tensor n => n.ast_id
  | .kernel n => n.ast_id
  | .kernelCall n => n.ast_id
  | .add n => n.ast_id
  | .sub n => n.ast_id
  | .mul n => n.ast_id
  | .div n => n.ast_id
  | .sqrt n => n.ast_id
  | .log2 n => n.ast_id
  | .exp2 n => n.ast_id
  | .assignment n => n.ast_id
  | .alias n => n.ast_id
  | .ret n => n.ast_id

/-- Rank of a tensor: the length of its shape. -/
def TensorNode.rank (n : TensorNode) : Nat := n.shape.length

/-- The fourteen concrete classes. -/
inductive NodeKind where
  | Scalar | Tensor | Kernel | KernelCall | Add | Sub | Mul | Div
  | Sqrt | Log2 | Exp2 | Assignment | Alias | Return
deriving DecidableEq, Repr

/-- Dynamic type of the object behind an `ASTNodePtr`. -/
def ASTNode.kind : ASTNode → NodeKind
  | .scalar _ => .Scalar
  | .tensor _ => .Tensor
  | .kernel _ => .Kernel
  | .kernelCall _ => .KernelCall
  | .add _ => .Add
  | .sub _ => .Sub
  | .mul _ => .Mul
  | .div _ => .Div
  | .sqrt _ => .Sqrt
  | .log2 _ => .Log2
  | .exp2 _ => .Exp2
  | .assignment _ => .Assignment
  | .alias _ => .Alias
  | .ret _ => .Return

/-- Whether the dynamic type is `KernelNode`. -/
def ASTNode.isKernel : ASTNode → Bool
  | .kernel _ => true
  | _ => false

/-! ## Stream insertion of the enums (lines 12-38 and 92-104) -/

/-- The text `operator<<(std::ostream&, const VariableType)` inserts. -/
def VariableType.print (var_type : VariableType) : String :=
  if var_type = VariableType.SCALAR then "SCALAR" else "TENSOR"

/-- The text `operator<<(std::ostream&, const DataType)` inserts. -/
def DataType.print (var_type : DataType) : String :=
  if var_type = DataType.FLOAT32 then "FLOAT32" else "FLOAT16"

/-- The text `operator<<(std::ostream&, const KernelScope)` inserts. -/
def KernelScope.print (scope : KernelScope) : String :=
  if scope = KernelScope.GLOBAL then "GLOBAL" else "DEVICE"

/-! ## The visitor protocol (the `accept` overrides) -/

/-- The interface `ASTVisitor`: one `apply` overload per concrete class.  A
handler receives the node it is applied to and the visitor's state `σ`, and
yields a result `ρ`. -/
structure ASTVisitor (σ ρ : Type) where
  apply_scalar : ScalarNode → σ → ρ
  apply_tensor : TensorNode → σ → ρ
  apply_kernel : KernelNode → σ → ρ
  apply_kernelCall : KernelCallNode → σ → ρ
  apply_add : BinaryNode → σ → ρ
  apply_sub : BinaryNode → σ → ρ
  apply_mul : BinaryNode → σ → ρ
  apply_div : BinaryNode → σ → ρ
  apply_sqrt : UnaryNode → σ → ρ
  apply_log2 : UnaryNode → σ → ρ
  apply_exp2 : UnaryNode → σ → ρ
  apply_assignment : AssignmentNode → σ → ρ
  apply_alias : AliasNode → σ → ρ
  apply_return : ReturnNode → σ → ρ

/-- The virtual call `node->accept(visitor)` through an `ASTNodePtr`: the
override of the node's dynamic type runs, and its body is
`visitor.apply(*this)` with `*this` of that class. -/
def ASTNode.accept {σ ρ : Type} (node : ASTNode) (visitor : ASTVisitor σ ρ) (s : σ) : ρ :=
  match node with
  | .scalar n => visitor.apply_scalar n s
  | .tensor n => visitor.apply_tensor n s
  | .kernel n => visitor.apply_kernel n s
  | .kernelCall n => visitor.apply_kernelCall n s
  | .add n => visitor.apply_add n s
  | .sub n => visitor.apply_sub n s
  | .mul n => visitor.apply_mul n s
  | .div n => visitor.apply_div n s
  | .sqrt n => visitor.apply_sqrt n s
  | .log2 n => visitor.apply_log2 n s
  | .exp2 n => visitor.apply_exp2 n s
  | .assignment n => visitor.apply_assignment n s
  | .alias n => visitor.apply_alias n s
  | .ret n => visitor.apply_return n s

/-- The virtual call `node->accept(visitor)` through a `VariableNodePtr`. -/
def VariableNode.accept {σ ρ : Type} (node : VariableNode) (visitor : ASTVisitor σ ρ) (s : σ) : ρ :=
  match node with
  | .scalar n => visitor.apply_scalar n s
  | .tensor n => visitor.apply_tensor n s

/-- One entry of a spy visitor's log: which `apply` overload ran, and the node
it was handed. -/
structure Call where
  handler : NodeKind
  node : ASTNode

/-- A spy visitor: every overload appends one entry, naming itself and its
argument, to the log and does nothing else. -/
def spy : ASTVisitor (List Call) (List Call) where
  apply_scalar n log := log ++ [⟨.Scalar, .scalar n⟩]
  apply_tensor n log := log ++ [⟨.Tensor, .tensor n⟩]
  apply_kernel n log := log ++ [⟨.Kernel, .kernel n⟩]
  apply_kernelCall n log := log ++ [⟨.KernelCall, .kernelCall n⟩]
  apply_add n log := log ++ [⟨.Add, .add n⟩]
  apply_sub n log := log ++ [⟨.Sub, .sub n⟩]
  apply_mul n log := log ++ [⟨.Mul, .mul n⟩]
  apply_div n log := log ++ [⟨.Div, .div n⟩]
  apply_sqrt n log := log ++ [⟨.Sqrt, .sqrt n⟩]
  apply_log2 n log := log ++ [⟨.Log2, .log2 n⟩]
  apply_exp2 n log := log ++ [⟨.Exp2, .exp2 n⟩]
  apply_assignment n log := log ++ [⟨.Assignment, .assignment n⟩]
  apply_alias n log := log ++ [⟨.Alias, .alias n⟩]
  apply_return n log := log ++ [⟨.Return, .ret n⟩]

/-! ## The printer (lines 313-429) -/

/-- The class `ASTPrinter`: its only member is the trace buffer. -/
structure ASTPrinter where
  ast_as_string : String
deriving DecidableEq, Repr

/-- How a call on the printer ends: it returns (`done`) with the printer in
state `p`, or it dereferences a null pointer (`nullDeref`) with the printer in
state `p` at that moment. -/
inductive Visit where
  | done (p : ASTPrinter)
  | nullDeref (p : ASTPrinter)
deriving DecidableEq, Repr

/-- The printer state a run ended in. -/
def Visit.printer : Visit → ASTPrinter
  | .done p => p
  | .nullDeref p => p

/-- The trace buffer a run ended with. -/
def Visit.buffer (v : Visit) : String := v.printer.ast_as_string

/-- Whether the run returned. -/
def Visit.returned : Visit → Bool
  | .done _ => true
  | .nullDeref _ => false

/-- Sequencing of statements: the next statement runs only if the previous one
returned. -/
def Visit.bind (v : Visit) (next : ASTPrinter → Visit) : Visit :=
  match v with
  | .done p => next p
  | .nullDeref p => .nullDeref p

/-- Source `ASTPrinter::ASTPrinter()` (line 315): the buffer is default-constructed. -/
def ASTPrinter.new : ASTPrinter := ⟨""⟩

/-- Source `ASTPrinter::reset()` (line 325): `ast_as_string.clear()`. -/
def ASTPrinter.reset (_p : ASTPrinter) : ASTPrinter := ⟨""⟩

/-- Source `apply(KernelCallNode&)` (line 379): empty body. -/
def ASTPrinter.apply_kernelCall (_node : KernelCallNode) (p : ASTPrinter) : Visit := .done p

/-- Source `apply(ScalarNode&)` (line 383): empty body. -/
def ASTPrinter.apply_scalar (_node : ScalarNode) (p : ASTPrinter) : Visit := .done p

/-- Source `apply(TensorNode&)` (line 387): empty body. -/
def ASTPrinter.apply_tensor (_node : TensorNode) (p : ASTPrinter) : Visit := .done p

/-- Source `apply(AddNode&)` (line 391): empty body. -/
def ASTPrinter.apply_add (_node : BinaryNode) (p : ASTPrinter) : Visit := .done p

/-- Source `apply(SubNode&)` (line 395): empty body. -/
def ASTPrinter.apply_sub (_node : BinaryNode) (p : ASTPrinter) : Visit := .done p

/-- Source `apply(MulNode&)` (line 399): empty body. -/
def ASTPrinter.apply_mul (_node : BinaryNode) (p : ASTPrinter) : Visit := .done p

/-- Source `apply(DivNode&)` (line 403): empty body. -/
def ASTPrinter.apply_div (_node : BinaryNode) (p : ASTPrinter) : Visit := .done p

/-- Source `apply(SqrtNode&)` (line 407): empty body. -/
def ASTPrinter.apply_sqrt (_node : UnaryNode) (p : ASTPrinter) : Visit := .done p

/-- Source `apply(Log2Node&)` (line 411): empty body. -/
def ASTPrinter.apply_log2 (_node : UnaryNode) (p : ASTPrinter) : Visit := .done p

/-- Source `apply(Exp2Node&)` (line 415): empty body. -/
def ASTPrinter.apply_exp2 (_node : UnaryNode) (p : ASTPrinter) : Visit := .done p

/-- Source `apply(AssignmentNode&)` (line 419): empty body. -/
def ASTPrinter.apply_assignment (_node : AssignmentNode) (p : ASTPrinter) : Visit := .done p

/-- Source `apply(AliasNode&)` (line 423): empty body. -/
def ASTPrinter.apply_alias (_node : AliasNode) (p : ASTPrinter) : Visit := .done p

/-- Source `apply(ReturnNode&)` (line 427): empty body. -/
def ASTPrinter.apply_return (_node : ReturnNode) (p : ASTPrinter) : Visit := .done p

/-- Source `arg_ast->accept(*this)` on a `VariableNodePtr` with the printer as the
visitor: the override of the dynamic type calls the matching overload. -/
def ASTPrinter.accept_variable (node : VariableNode) (p : ASTPrinter) : Visit :=
  match node with
  | .scalar n => ASTPrinter.apply_scalar n p
  | .tensor n => ASTPrinter.apply_tensor n p

/-- Lines 332-360 of `apply(KernelNode&)`: the contents of the local
`std::stringstream ss` when it is appended to the buffer.  `show_id` is the
text that `ss << ast_id` inserts for an identifier (the identifier type is
declared in `core.hpp`, not part of the sources). -/
def ASTPrinter.record (show_id : Identifier → String) (node : KernelNode) : String :=
  let ss := ""
  let ss := ss ++ "-- KernelNode \n"
  let ss := ss ++ "  id:    " ++ show_id node.ast_id ++ "\n"
  let ss := ss ++ "  name:  " ++ node.name ++ "\n"
  let ss := ss ++ "  scope: " ++ node.scope.print ++ "\n"
  let ss := ss ++ "  args:  "
  let ss := node.arguments.foldl (fun ss arg_ast => ss ++ show_id arg_ast.ast_id ++ ", ") ss
  let ss := ss ++ "\n"
  let ss :=
    match node.return_value with
    | some return_value => ss ++ "  ret:   " ++ show_id return_value.ast_id ++ "\n"
    | none => ss ++ "  ret:   " ++ "void" ++ "\n"
  let ss := ss ++ "  body:  "
  let ss := node.body.foldl (fun ss body_ast => ss ++ show_id body_ast.ast_id ++ ", ") ss
  let ss := ss ++ "\n"
  ss

/-- Lines 366-369 of `apply(KernelNode&)`: the loop
`for (auto& arg_ast : node.arguments) arg_ast->accept(*this);`. -/
def ASTPrinter.accept_arguments (arguments : List VariableNode) (p : ASTPrinter) : Visit :=
  arguments.foldl (fun v arg_ast => v.bind (ASTPrinter.accept_variable arg_ast)) (.done p)

/-- Line 371 of `apply(KernelNode&)`: `node.return_value->accept(*this);`,
executed whether or not the pointer is null. -/
def ASTPrinter.accept_return_value (return_value : Option VariableNode) (p : ASTPrinter) : Visit :=
  match return_value with
  | some rv => ASTPrinter.accept_variable rv p
  | none => .nullDeref p

mutual

/-- Source `ASTPrinter::apply(KernelNode&)` (lines 330-377). -/
def ASTPrinter.apply_kernel (show_id : Identifier → String) : KernelNode → ASTPrinter → Visit
  | .mk ast_id name scope arguments return_value body, p =>
    let p1 : ASTPrinter :=
      ⟨p.ast_as_string ++
        ASTPrinter.record show_id (.mk ast_id name scope arguments return_value body)⟩
    ((ASTPrinter.accept_arguments arguments p1).bind
      (ASTPrinter.accept_return_value return_value)).bind
      (ASTPrinter.accept_body show_id body)

/-- Lines 373-376 of `apply(KernelNode&)`: the loop
`for (auto& body_ast : node.body) body_ast->accept(*this);`. -/
def ASTPrinter.accept_body (show_id : Identifier → String) : List ASTNode → ASTPrinter → Visit
  | [], p => .done p
  | body_ast :: rest, p =>
    (ASTPrinter.accept show_id body_ast p).bind (ASTPrinter.accept_body show_id rest)

/-- Source `node->accept(*this)` on an `ASTNodePtr` with the printer as the visitor. -/
def ASTPrinter.accept (show_id : Identifier → String) : ASTNode → ASTPrinter → Visit
  | .scalar n, p => ASTPrinter.apply_scalar n p
  | .tensor n, p => ASTPrinter.apply_tensor n p
  | .kernel n, p => ASTPrinter.apply_kernel show_id n p
  | .kernelCall n, p => ASTPrinter.apply_kernelCall n p
  | .add n, p => ASTPrinter.apply_add n p
  | .sub n, p => ASTPrinter.apply_sub n p
  | .mul n, p => ASTPrinter.apply_mul n p
  | .div n, p => ASTPrinter.apply_div n p
  | .sqrt n, p => ASTPrinter.apply_sqrt n p
  | .log2 n, p => ASTPrinter.apply_log2 n p
  | .exp2 n, p => ASTPrinter.apply_exp2 n p
  | .assignment n, p => ASTPrinter.apply_assignment n p
  | .alias n, p => ASTPrinter.apply_alias n p
  | .ret n, p => ASTPrinter.apply_return n p

end

/-- The printer seen as an `ASTVisitor`: its fourteen `apply` overloads. -/
def ASTPrinter.visitor (show_id : Identifier → String) : ASTVisitor ASTPrinter Visit where
  apply_scalar := ASTPrinter.apply_scalar
  apply_tensor := ASTPrinter.apply_tensor
  apply_kernel := ASTPrinter.apply_kernel show_id
  apply_kernelCall := ASTPrinter.apply_kernelCall
  apply_add := ASTPrinter.apply_add
  apply_sub := ASTPrinter.apply_sub
  apply_mul := ASTPrinter.apply_mul
  apply_div := ASTPrinter.apply_div
  apply_sqrt := ASTPrinter.apply_sqrt
  apply_log2 := ASTPrinter.apply_log2
  apply_exp2 := ASTPrinter.apply_exp2
  apply_assignment := ASTPrinter.apply_assignment
  apply_alias := ASTPrinter.apply_alias
  apply_return := ASTPrinter.apply_return

/-- The text of a whole run on a fresh printer: `ast_as_string` after
dispatching a newly constructed printer on `node`. -/
def ASTPrinter.trace (show_id : Identifier → String) (node : ASTNode) : String :=
  (ASTPrinter.accept show_id node ASTPrinter.new).buffer

/-- The same outcome with `s` put in front of the buffer. -/
def Visit.prepend (s : String) : Visit → Visit
  | .done p => .done ⟨s ++ p.ast_as_string⟩
  | .nullDeref p => .nullDeref ⟨s ++ p.ast_as_string⟩

/-- The record in the words of the specification: a header line, an id line,
a name line, a scope line, an args line listing each argument's identifier
followed by `, `, a ret line, and a body line listing each body statement's
identifier followed by `, `; every line ends with a newline.  The arguments
are the texts of the identifiers, of the name, of the scope tag and of the
return slot. -/
def recordLines (idText name scopeText : String) (argTexts : List String) (retText : String)
    (bodyTexts : List String) : String :=
  "-- KernelNode \n"
    ++ ("  id:    " ++ idText ++ "\n")
    ++ ("  name:  " ++ name ++ "\n")
    ++ ("  scope: " ++ scopeText ++ "\n")
    ++ ("  args:  " ++ String.join (argTexts.map (fun t => t ++ ", ")) ++ "\n")
    ++ ("  ret:   " ++ retText ++ "\n")
    ++ ("  body:  " ++ String.join (bodyTexts.map (fun t => t ++ ", ")) ++ "\n")

/-! ## Construction (lines 6-311) -/

/-- Source `ASTNode::ASTNode()` (line 6): `ast_id = GlobalUUIDGenerator::generate_uuid();`.
The generator is declared in `core.hpp`, not part of the sources: `G` is its
process-wide state and `generate_uuid` one call on it, giving the identifier
returned and the state left behind.  The result is the value stored in
`ast_id` and the generator state after the constructor. -/
def ASTNode.init {G : Type} (generate_uuid : G → Identifier × G) (g : G) : Identifier × G :=
  generate_uuid g

/-- Source `ScalarNode::ScalarNode` (line 48) over `VariableNode::VariableNode`
(line 41): `ASTNode(), vtype(vtype), dtype(dtype), name(name)`. -/
def ScalarNode.new {G : Type} (generate_uuid : G → Identifier × G)
    (vtype : VariableType) (dtype : DataType) (name : String) (g : G) : ScalarNode × G :=
  let base := ASTNode.init generate_uuid g
  (⟨base.1, vtype, dtype, name⟩, base.2)

/-- Source `ScalarNode::create_scalar_node` (line 59). -/
def ScalarNode.create_scalar_node {G : Type} (generate_uuid : G → Identifier × G)
    (vtype : VariableType) (dtype : DataType) (name : String) (g : G) : ASTNode × G :=
  let made := ScalarNode.new generate_uuid vtype dtype name g
  (.scalar made.1, made.2)

/-- Source `TensorNode::TensorNode` (line 68): `VariableNode(vtype, dtype, name),
shape(shape)`, with an empty body. -/
def TensorNode.new {G : Type} (generate_uuid : G → Identifier × G)
    (vtype : VariableType) (dtype : DataType) (name : String) (shape : List Int) (g : G) :
    TensorNode × G :=
  let base := ASTNode.init generate_uuid g
  (⟨base.1, vtype, dtype, name, shape⟩, base.2)

/-- Source `TensorNode::create_tensor_node` (line 82). -/
def TensorNode.create_tensor_node {G : Type} (generate_uuid : G → Identifier × G)
    (vtype : VariableType) (dtype : DataType) (name : String) (shape : List Int) (g : G) :
    ASTNode × G :=
  let made := TensorNode.new generate_uuid vtype dtype name shape g
  (.tensor made.1, made.2)

/-- Source `KernelNode::KernelNode` (line 107): `ASTNode(), name(name), scope(scope),
arguments(arguments), return_value(return_value)`; the member `body` is not
initialised from a parameter and starts empty. -/
def KernelNode.new {G : Type} (generate_uuid : G → Identifier × G)
    (name : String) (scope : KernelScope) (arguments : List VariableNode)
    (return_value : Option VariableNode) (g : G) : KernelNode × G :=
  let base := ASTNode.init generate_uuid g
  (.mk base.1 name scope arguments return_value [], base.2)

/-- Source `KernelNode::create_kernel_node` (line 123). -/
def KernelNode.create_kernel_node {G : Type} (generate_uuid : G → Identifier × G)
    (name : String) (scope : KernelScope) (arguments : List VariableNode)
    (return_value : Option VariableNode) (g : G) : ASTNode × G :=
  let made := KernelNode.new generate_uuid name scope arguments return_value g
  (.kernel made.1, made.2)

/-- Source `KernelCallNode::KernelCallNode` (line 133). -/
def KernelCallNode.new {G : Type} (generate_uuid : G → Identifier × G)
    (kernel : KernelNode) (arguments : List VariableNode) (g : G) : KernelCallNode × G :=
  let base := ASTNode.init generate_uuid g
  (.mk base.1 kernel arguments, base.2)

/-- Source `KernelCallNode::create_kernelcall_node` (line 146). -/
def KernelCallNode.create_kernelcall_node {G : Type} (generate_uuid : G → Identifier × G)
    (kernel : KernelNode) (arguments : List VariableNode) (g : G) : ASTNode × G :=
  let made := KernelCallNode.new generate_uuid kernel arguments g
  (.kernelCall made.1, made.2)

/-- Source `BinaryNode::BinaryNode` (line 154): `ASTNode(), lhs(lhs), rhs(rhs)`.  The
constructors of `AddNode`, `SubNode`, `MulNode`, `DivNode` (lines 159, 174,
189, 204) only forward to it. -/
def BinaryNode.new {G : Type} (generate_uuid : G → Identifier × G)
    (lhs rhs : ASTNode) (g : G) : BinaryNode × G :=
  let base := ASTNode.init generate_uuid g
  (.mk base.1 lhs rhs, base.2)

/-- Source `AddNode::create_add_node` (line 168). -/
def AddNode.create_add_node {G : Type} (generate_uuid : G → Identifier × G)
    (lhs rhs : ASTNode) (g : G) : ASTNode × G :=
  let made := BinaryNode.new generate_uuid lhs rhs g
  (.add made.1, made.2)

/-- Source `SubNode::create_sub_node` (line 183). -/
def SubNode.create_sub_node {G : Type} (generate_uuid : G → Identifier × G)
    (lhs rhs : ASTNode) (g : G) : ASTNode × G :=
  let made := BinaryNode.new generate_uuid lhs rhs g
  (.sub made.1, made.2)

/-- Source `MulNode::create_mul_node` (line 198). -/
def MulNode.create_mul_node {G : Type} (generate_uuid : G → Identifier × G)
    (lhs rhs : ASTNode) (g : G) : ASTNode × G :=
  let made := BinaryNode.new generate_uuid lhs rhs g
  (.mul made.1, made.2)

/-- Source `DivNode::create_div_node` (line 213). -/
def DivNode.create_div_node {G : Type} (generate_uuid : G → Identifier × G)
    (lhs rhs : ASTNode) (g : G) : ASTNode × G :=
  let made := BinaryNode.new generate_uuid lhs rhs g
  (.div made.1, made.2)

/-- Source `UnaryNode::UnaryNode` (line 219): `ASTNode(), x(x)`.  The constructors of
`SqrtNode`, `Log2Node`, `Exp2Node` (lines 224, 239, 254) only forward to it. -/
def UnaryNode.new {G : Type} (generate_uuid : G → Identifier × G)
    (x : ASTNode) (g : G) : UnaryNode × G :=
  let base := ASTNode.init generate_uuid g
  (.mk base.1 x, base.2)

/-- Source `SqrtNode::create_sqrt_node` (line 233). -/
def SqrtNode.create_sqrt_node {G : Type} (generate_uuid : G → Identifier × G)
    (x : ASTNode) (g : G) : ASTNode × G :=
  let made := UnaryNode.new generate_uuid x g
  (.sqrt made.1, made.2)

/-- Source `Log2Node::create_log2_node` (line 248). -/
def Log2Node.create_log2_node {G : Type} (generate_uuid : G → Identifier × G)
    (x : ASTNode) (g : G) : ASTNode × G :=
  let made := UnaryNode.new generate_uuid x g
  (.log2 made.1, made.2)

/-- Source `Exp2Node::create_exp2_node` (line 263). -/
def Exp2Node.create_exp2_node {G : Type} (generate_uuid : G → Identifier × G)
    (x : ASTNode) (g : G) : ASTNode × G :=
  let made := UnaryNode.new generate_uuid x g
  (.exp2 made.1, made.2)

/-- Source `AssignmentNode::AssignmentNode` (line 269): `ASTNode(), trg(trg), src(src)`. -/
def AssignmentNode.new {G : Type} (generate_uuid : G → Identifier × G)
    (trg src : ASTNode) (g : G) : AssignmentNode × G :=
  let base := ASTNode.init generate_uuid g
  (.mk base.1 trg src, base.2)

/-- Source `AssignmentNode::create_assignment_node` (line 278). -/
def AssignmentNode.create_assignment_node {G : Type} (generate_uuid : G → Identifier × G)
    (trg src : ASTNode) (g : G) : ASTNode × G :=
  let made := AssignmentNode.new generate_uuid trg src g
  (.assignment made.1, made.2)

/-- Source `AliasNode::AliasNode` (line 284): `ASTNode(), src(src)`. -/
def AliasNode.new {G : Type} (generate_uuid : G → Identifier × G)
    (src : ASTNode) (g : G) : AliasNode × G :=
  let base := ASTNode.init generate_uuid g
  (.mk base.1 src, base.2)

/-- Source `AliasNode::create_alias_node` (line 293). -/
def AliasNode.create_alias_node {G : Type} (generate_uuid : G → Identifier × G)
    (src : ASTNode) (g : G) : ASTNode × G :=
  let made := AliasNode.new generate_uuid src g
  (.alias made.1, made.2)

/-- Source `ReturnNode::ReturnNode` (line 299): `ASTNode(), return_value(return_value)`. -/
def ReturnNode.new {G : Type} (generate_uuid : G → Identifier × G)
    (return_value : ASTNode) (g : G) : ReturnNode × G :=
  let base := ASTNode.init generate_uuid g
  (.mk base.1 return_value, base.2)

/-- Source `ReturnNode::create_node` (line 308). -/
def ReturnNode.create_node {G : Type} (generate_uuid : G → Identifier × G)
    (return_value : ASTNode) (g : G) : ASTNode × G :=
  let made := ReturnNode.new generate_uuid return_value g
  (.ret made.1, made.2)

/-! ## A run of constructions -/

/-- One call of a construction function by a builder: which factory, with
which arguments. -/
inductive Request where
  | scalar (vtype : VariableType) (dtype : DataType) (name : String)
  | tensor (vtype : VariableType) (dtype : DataType) (name : String) (shape : List Int)
  | kernel (name : String) (scope : KernelScope) (arguments : List VariableNode)
      (return_value : Option VariableNode)
  | kernelCall (kernel : KernelNode) (arguments : List VariableNode)
  | add (lhs rhs : ASTNode)
  | sub (lhs rhs : ASTNode)
  | mul (lhs rhs : ASTNode)
  | div (lhs rhs : ASTNode)
  | sqrt (x : ASTNode)
  | log2 (x : ASTNode)
  | exp2 (x : ASTNode)
  | assignment (trg src : ASTNode)
  | alias (src : ASTNode)
  | ret (return_value : ASTNode)

/-- Serve one request by calling the factory it names. -/
def construct {G : Type} (generate_uuid : G → Identifier × G) : Request → G → ASTNode × G
  | .scalar vtype dtype name => ScalarNode.create_scalar_node generate_uuid vtype dtype name
  | .tensor vtype dtype name shape =>
    TensorNode.create_tensor_node generate_uuid vtype dtype name shape
  | .kernel name scope arguments return_value =>
    KernelNode.create_kernel_node generate_uuid name scope arguments return_value
  | .kernelCall kernel arguments =>
    KernelCallNode.create_kernelcall_node generate_uuid kernel arguments
  | .add lhs rhs => AddNode.create_add_node generate_uuid lhs rhs
  | .sub lhs rhs => SubNode.create_sub_node generate_uuid lhs rhs
  | .mul lhs rhs => MulNode.create_mul_node generate_uuid lhs rhs
  | .div lhs rhs => DivNode.create_div_node generate_uuid lhs rhs
  | .sqrt x => SqrtNode.create_sqrt_node generate_uuid x
  | .log2 x => Log2Node.create_log2_node generate_uuid x
  | .exp2 x => Exp2Node.create_exp2_node generate_uuid x
  | .assignment trg src => AssignmentNode.create_assignment_node generate_uuid trg src
  | .alias src => AliasNode.create_alias_node generate_uuid src
  | .ret return_value => ReturnNode.create_node generate_uuid return_value

/-- One process run of a builder: a sequence of factory calls, each of which
may be chosen from (and wired to) the nodes built before it.  Returns the
nodes in construction order and the generator state at the end. -/
def constructAll {G : Type} (generate_uuid : G → Identifier × G) :
    List (List ASTNode → Request) → List ASTNode → G → List ASTNode × G
  | [], built, g => (built, g)
  | step :: rest, built, g =>
    let made := construct generate_uuid (step built) g
    constructAll generate_uuid rest (built ++ [made.1]) made.2

/-- The generator state after `k` calls starting from `g`. -/
def stateAfter {G : Type} (generate_uuid : G → Identifier × G) (g : G) : Nat → G
  | 0 => g
  | k + 1 => (generate_uuid (stateAfter generate_uuid g k)).2

/-- The identifier returned by call number `k` (from 0) starting from `g`. -/
def issued {G : Type} (generate_uuid : G → Identifier × G) (g : G) (k : Nat) : Identifier :=
  (generate_uuid (stateAfter generate_uuid g k)).1

/-- A generator that counts: it returns its state and moves to the next number. -/
def counter (n : Nat) : Identifier × Nat := (n, n + 1)

/-! ## The scenario kernel `add_vectors` -/

/-- Tensor argument `a` of shape `[1024]`, FLOAT32. -/
def tensor_a : TensorNode := ⟨0, .TENSOR, .FLOAT32, "a", [1024]⟩

/-- Tensor argument `b` of shape `[1024]`, FLOAT32. -/
def tensor_b : TensorNode := ⟨1, .TENSOR, .FLOAT32, "b", [1024]⟩

/-- Tensor return value `out` of shape `[1024]`, FLOAT32. -/
def tensor_out : TensorNode := ⟨2, .TENSOR, .FLOAT32, "out", [1024]⟩

/-- The statement `out = a + b`: an Assignment of an Add node. -/
def assign_out : ASTNode :=
  .assignment (.mk 5 (.tensor tensor_out) (.add (.mk 4 (.tensor tensor_a) (.tensor tensor_b))))

/-- GLOBAL kernel `add_vectors(a, b) -> out` with body `out = a + b`. -/
def add_vectors : KernelNode :=
  .mk 3 "add_vectors" .GLOBAL [.tensor tensor_a, .tensor tensor_b] (some (.tensor tensor_out))
    [assign_out]

/-! ## Further sample trees -/

/-- A GLOBAL kernel `k` without arguments, without return value (the null
pointer) and with an empty body, as `create_kernel_node("k", GLOBAL, {}, nullptr)`
builds it when the generator returns 7. -/
def void_kernel : KernelNode := .mk 7 "k" .GLOBAL [] none []

/-- A scalar `x` used as argument and return slot of the nested sample kernels. -/
def scalar_x : ScalarNode := ⟨10, .SCALAR, .FLOAT16, "x"⟩

/-- DEVICE kernel `leaf` with an empty body. -/
def kernel_leaf : KernelNode :=
  .mk 11 "leaf" .DEVICE [.scalar scalar_x] (some (.scalar scalar_x)) []

/-- DEVICE kernel `mid` whose body holds the kernel `leaf`. -/
def kernel_mid : KernelNode :=
  .mk 12 "mid" .DEVICE [] (some (.scalar scalar_x)) [.kernel kernel_leaf]

/-- DEVICE kernel `side` with an empty body. -/
def kernel_side : KernelNode := .mk 13 "side" .DEVICE [] (some (.scalar scalar_x)) []

/-- GLOBAL kernel `top` whose body holds, in order, the kernel `mid` (which
itself holds `leaf`), an Alias statement, and the kernel `side`. -/
def kernel_top : KernelNode :=
  .mk 14 "top" .GLOBAL [.scalar scalar_x] (some (.scalar scalar_x))
    [.kernel kernel_mid, .alias (.mk 15 (.scalar scalar_x)), .kernel kernel_side]

/-- GLOBAL kernel `outer` with a return value whose body holds, in order, the
kernel `leaf`, the kernel `k` that has no return value, and the kernel `side`. -/
def kernel_outer : KernelNode :=
  .mk 20 "outer" .GLOBAL [.scalar scalar_x] (some (.scalar scalar_x))
    [.kernel kernel_leaf, .kernel void_kernel, .kernel kernel_side]

/-- A builder run of four constructions: tensors `a` and `b`, then the Add of
the two nodes built so far, then a kernel `k` without return value. -/
def sample_run : List (List ASTNode → Request) :=
  [fun _ => Request.tensor .TENSOR .FLOAT32 "a" [4],
    fun _ => Request.tensor .TENSOR .FLOAT32 "b" [4],
    fun (built : List ASTNode) =>
      Request.add (built.getD 0 (.tensor tensor_a)) (built.getD 1 (.tensor tensor_b)),
    fun _ => Request.kernel "k" .GLOBAL [.tensor tensor_a] none]

/-! ## Auxiliary lemmas -/

theorem foldl_append_init (l : List String) (init : String) :
    l.foldl (fun r s => r ++ s) init = init ++ l.foldl (fun r s => r ++ s) "" := by
  induction l generalizing init with
  | nil => simp
  | cons x xs ih =>
    simp only [List.foldl_cons]
    rw [ih (init ++ x), ih ("" ++ x)]
    simp [String.append_assoc]

theorem join_cons (x : String) (xs : List String) :
    String.join (x :: xs) = x ++ String.join xs := by
  unfold String.join
  simp only [List.foldl_cons]
  rw [foldl_append_init]
  simp

theorem join_append (xs ys : List String) :
    String.join (xs ++ ys) = String.join xs ++ String.join ys := by
  induction xs with
  | nil => simp [String.join]
  | cons x xs ih => simp [join_cons, ih, String.append_assoc]

/-- The loops of `apply(KernelNode&)` that insert `id, ` for each element
insert the concatenation of these pieces, in order. -/
theorem foldl_insert_ids {α : Type} (f : α → String) (l : List α) (init : String) :
    l.foldl (fun ss a => ss ++ f a ++ ", ") init
      = init ++ String.join (l.map (fun a => f a ++ ", ")) := by
  induction l generalizing init with
  | nil => simp [String.join]
  | cons x xs ih =>
    simp only [List.foldl_cons, List.map_cons, join_cons]
    rw [ih]
    simp [String.append_assoc]

/-- The argument loop never changes the printer and always returns: both
`apply(ScalarNode&)` and `apply(TensorNode&)` are empty. -/
theorem accept_variable_done (node : VariableNode) (p : ASTPrinter) :
    ASTPrinter.accept_variable node p = .done p := by
  cases node <;> rfl

theorem accept_arguments_done (arguments : List VariableNode) (p : ASTPrinter) :
    ASTPrinter.accept_arguments arguments p = .done p := by
  unfold ASTPrinter.accept_arguments
  induction arguments with
  | nil => rfl
  | cons a rest ih =>
    have h : (Visit.done p).bind (ASTPrinter.accept_variable a) = .done p :=
      accept_variable_done a p
    rw [List.foldl_cons, h]
    exact ih

/-- Closed form of the record text for a kernel with a return value. -/
theorem record_some (show_id : Identifier → String) (ast_id : Identifier) (name : String)
    (scope : KernelScope) (arguments : List VariableNode) (rv : VariableNode)
    (body : List ASTNode) :
    ASTPrinter.record show_id (.mk ast_id name scope arguments (some rv) body)
      = recordLines (show_id ast_id) name
          (if scope = KernelScope.GLOBAL then "GLOBAL" else "DEVICE")
          (arguments.map (fun a => show_id a.ast_id)) (show_id rv.ast_id)
          (body.map (fun b => show_id b.ast_id)) := by
  simp only [ASTPrinter.record, KernelNode.ast_id, KernelNode.name, KernelNode.scope,
    KernelNode.arguments, KernelNode.return_value, KernelNode.body, KernelScope.print,
    foldl_insert_ids, recordLines, List.map_map, Function.comp_def]
  simp only [String.append_assoc, String.empty_append]

/-- Closed form of the record text for a kernel without a return value. -/
theorem record_none (show_id : Identifier → String) (ast_id : Identifier) (name : String)
    (scope : KernelScope) (arguments : List VariableNode) (body : List ASTNode) :
    ASTPrinter.record show_id (.mk ast_id name scope arguments none body)
      = recordLines (show_id ast_id) name
          (if scope = KernelScope.GLOBAL then "GLOBAL" else "DEVICE")
          (arguments.map (fun a => show_id a.ast_id)) "void"
          (body.map (fun b => show_id b.ast_id)) := by
  simp only [ASTPrinter.record, KernelNode.ast_id, KernelNode.name, KernelNode.scope,
    KernelNode.arguments, KernelNode.return_value, KernelNode.body, KernelScope.print,
    foldl_insert_ids, recordLines, List.map_map, Function.comp_def]
  simp only [String.append_assoc, String.empty_append]

/-- Unfolding of `apply(KernelNode&)` after the argument loop (which is a
no-op): append the record, dereference `return_value`, run the body loop. -/
theorem apply_kernel_eq (show_id : Identifier → String) (ast_id : Identifier) (name : String)
    (scope : KernelScope) (arguments : List VariableNode) (return_value : Option VariableNode)
    (body : List ASTNode) (p : ASTPrinter) :
    ASTPrinter.apply_kernel show_id (.mk ast_id name scope arguments return_value body) p
      = (ASTPrinter.accept_return_value return_value
          ⟨p.ast_as_string
            ++ ASTPrinter.record show_id (.mk ast_id name scope arguments return_value body)⟩).bind
          (ASTPrinter.accept_body show_id body) := by
  rw [ASTPrinter.apply_kernel]
  simp only [accept_arguments_done, Visit.bind]

/-! ## Framing: a run only appends, and what it appends ignores the buffer -/

mutual

theorem apply_kernel_frame (show_id : Identifier → String) :
    ∀ (node : KernelNode) (s t : String),
      ASTPrinter.apply_kernel show_id node ⟨s ++ t⟩
        = (ASTPrinter.apply_kernel show_id node ⟨t⟩).prepend s
  | .mk ast_id name scope arguments return_value body, s, t => by
    rw [apply_kernel_eq, apply_kernel_eq]
    cases return_value with
    | none => simp [ASTPrinter.accept_return_value, Visit.bind, Visit.prepend, String.append_assoc]
    | some rv =>
      simp only [ASTPrinter.accept_return_value, accept_variable_done, Visit.bind,
        String.append_assoc]
      exact accept_body_frame show_id body s _

theorem accept_body_frame (show_id : Identifier → String) :
    ∀ (body : List ASTNode) (s t : String),
      ASTPrinter.accept_body show_id body ⟨s ++ t⟩
        = (ASTPrinter.accept_body show_id body ⟨t⟩).prepend s
  | [], _, _ => by simp [ASTPrinter.accept_body, Visit.prepend]
  | body_ast :: rest, s, t => by
    rw [ASTPrinter.accept_body, ASTPrinter.accept_body, accept_frame show_id body_ast s t]
    cases ASTPrinter.accept show_id body_ast ⟨t⟩ with
    | done q => exact accept_body_frame show_id rest s q.ast_as_string
    | nullDeref q => rfl

theorem accept_frame (show_id : Identifier → String) :
    ∀ (node : ASTNode) (s t : String),
      ASTPrinter.accept show_id node ⟨s ++ t⟩
        = (ASTPrinter.accept show_id node ⟨t⟩).prepend s
  | .kernel n, s, t => by
    rw [ASTPrinter.accept, ASTPrinter.accept]
    exact apply_kernel_frame show_id n s t
  | .scalar _, _, _ => by simp [ASTPrinter.accept, ASTPrinter.apply_scalar, Visit.prepend]
  | .tensor _, _, _ => by simp [ASTPrinter.accept, ASTPrinter.apply_tensor, Visit.prepend]
  | .kernelCall _, _, _ => by
    simp [ASTPrinter.accept, ASTPrinter.apply_kernelCall, Visit.prepend]
  | .add _, _, _ => by simp [ASTPrinter.accept, ASTPrinter.apply_add, Visit.prepend]
  | .sub _, _, _ => by simp [ASTPrinter.accept, ASTPrinter.apply_sub, Visit.prepend]
  | .mul _, _, _ => by simp [ASTPrinter.accept, ASTPrinter.apply_mul, Visit.prepend]
  | .div _, _, _ => by simp [ASTPrinter.accept, ASTPrinter.apply_div, Visit.prepend]
  | .sqrt _, _, _ => by simp [ASTPrinter.accept, ASTPrinter.apply_sqrt, Visit.prepend]
  | .log2 _, _, _ => by simp [ASTPrinter.accept, ASTPrinter.apply_log2, Visit.prepend]
  | .exp2 _, _, _ => by simp [ASTPrinter.accept, ASTPrinter.apply_exp2, Visit.prepend]
  | .assignment _, _, _ => by
    simp [ASTPrinter.accept, ASTPrinter.apply_assignment, Visit.prepend]
  | .alias _, _, _ => by simp [ASTPrinter.accept, ASTPrinter.apply_alias, Visit.prepend]
  | .ret _, _, _ => by simp [ASTPrinter.accept, ASTPrinter.apply_return, Visit.prepend]

end

/-- A run from any printer state is the run from a fresh printer with the old
buffer put in front. -/
theorem accept_from (show_id : Identifier → String) (node : ASTNode) (p : ASTPrinter) :
    ASTPrinter.accept show_id node p
      = (ASTPrinter.accept show_id node ASTPrinter.new).prepend p.ast_as_string := by
  have h := accept_frame show_id node p.ast_as_string ""
  simpa [ASTPrinter.new] using h

/-- The printer's own dispatch is the generic `accept` at the printer's
overloads. -/
theorem accept_eq_visitor (show_id : Identifier → String) (node : ASTNode) (p : ASTPrinter) :
    node.accept (ASTPrinter.visitor show_id) p = ASTPrinter.accept show_id node p := by
  cases node <;> simp [ASTNode.accept, ASTPrinter.visitor, ASTPrinter.accept]

/-- A body without kernels leaves the printer untouched. -/
theorem accept_body_no_kernel (show_id : Identifier → String) (body : List ASTNode)
    (h : ∀ b ∈ body, b.isKernel = false) (p : ASTPrinter) :
    ASTPrinter.accept_body show_id body p = .done p := by
  induction body with
  | nil => simp [ASTPrinter.accept_body]
  | cons b rest ih =>
    have hb : ASTPrinter.accept show_id b p = .done p := by
      have hk := h b (List.mem_cons_self b rest)
      cases b <;> first | rfl | simp [ASTNode.isKernel] at hk
    rw [ASTPrinter.accept_body, hb]
    exact ih (fun x hx => h x (List.mem_cons_of_mem b hx))

theorem buffer_prepend (s : String) (v : Visit) :
    (v.prepend s).buffer = s ++ v.buffer := by
  cases v <;> rfl

theorem returned_prepend (s : String) (v : Visit) :
    (v.prepend s).returned = v.returned := by
  cases v <;> rfl

/-- Every run keeps the buffer it started with as the beginning of the buffer
it ends with. -/
theorem accept_body_buffer (show_id : Identifier → String) (body : List ASTNode)
    (p : ASTPrinter) :
    (ASTPrinter.accept_body show_id body p).buffer
      = p.ast_as_string ++ (ASTPrinter.accept_body show_id body ASTPrinter.new).buffer := by
  have h := accept_body_frame show_id body p.ast_as_string ""
  simp only [String.append_empty] at h
  rw [show p = ⟨p.ast_as_string⟩ from rfl, h, buffer_prepend]
  rfl

/-- The body loop is the left-to-right sequencing of the dispatches. -/
theorem bind_accept_body (show_id : Identifier → String) (body : List ASTNode) (v : Visit) :
    v.bind (ASTPrinter.accept_body show_id body)
      = body.foldl (fun v b => v.bind (ASTPrinter.accept show_id b)) v := by
  induction body generalizing v with
  | nil => cases v <;> rfl
  | cons b rest ih =>
    rw [List.foldl_cons, ← ih]
    cases v <;> rfl

/-- When each statement's own run returns, the body loop appends their traces
in order. -/
theorem accept_body_traces (show_id : Identifier → String) (body : List ASTNode)
    (h : ∀ b ∈ body, (ASTPrinter.accept show_id b ASTPrinter.new).returned = true)
    (p : ASTPrinter) :
    ASTPrinter.accept_body show_id body p
      = .done ⟨p.ast_as_string ++ String.join (body.map (ASTPrinter.trace show_id))⟩ := by
  induction body generalizing p with
  | nil => simp [ASTPrinter.accept_body, String.join]
  | cons b rest ih =>
    have hb := h b (List.mem_cons_self b rest)
    rw [ASTPrinter.accept_body, accept_from show_id b p, List.map_cons, join_cons]
    cases hr : ASTPrinter.accept show_id b ASTPrinter.new with
    | done q =>
      have ht : ASTPrinter.trace show_id b = q.ast_as_string := by
        simp [ASTPrinter.trace, hr, Visit.buffer, Visit.printer]
      simp only [Visit.prepend, Visit.bind]
      rw [ih (fun x hx => h x (List.mem_cons_of_mem b hx)), ht]
      simp [String.append_assoc]
    | nullDeref q => rw [hr] at hb; simp [Visit.returned] at hb

/-- Every factory draws once from the generator: the node's `ast_id` is the
value returned and the generator is left in the state after that one call. -/
theorem construct_draws_once {G : Type} (generate_uuid : G → Identifier × G) (req : Request)
    (g : G) :
    (construct generate_uuid req g).1.ast_id = (generate_uuid g).1
      ∧ (construct generate_uuid req g).2 = (generate_uuid g).2 := by
  cases req <;> exact ⟨rfl, rfl⟩

theorem stateAfter_succ {G : Type} (generate_uuid : G → Identifier × G) (g : G) (k : Nat) :
    stateAfter generate_uuid g (k + 1) = stateAfter generate_uuid (generate_uuid g).2 k := by
  induction k with
  | zero => rfl
  | succ k ih =>
    show (generate_uuid (stateAfter generate_uuid g (k + 1))).2 = _
    rw [ih]
    rfl

theorem issued_succ {G : Type} (generate_uuid : G → Identifier × G) (g : G) (k : Nat) :
    issued generate_uuid g (k + 1) = issued generate_uuid (generate_uuid g).2 k := by
  unfold issued
  rw [stateAfter_succ]

/-- The identifiers of the nodes of a run are, in construction order, the
values the generator returned, call after call. -/
theorem constructAll_ids {G : Type} (generate_uuid : G → Identifier × G)
    (prog : List (List ASTNode → Request)) (built : List ASTNode) (g : G) :
    (constructAll generate_uuid prog built g).1.map ASTNode.ast_id
      = built.map ASTNode.ast_id ++ (List.range prog.length).map (issued generate_uuid g) := by
  induction prog generalizing built g with
  | nil => simp [constructAll]
  | cons step rest ih =>
    rw [constructAll, ih, List.length_cons, List.range_succ_eq_map, List.map_cons,
      List.map_map, List.map_append, List.append_assoc]
    congr 1
    rw [List.map_cons, List.map_nil, List.singleton_append]
    congr 1
    · exact (construct_draws_once generate_uuid (step built) g).1
    · rw [(construct_draws_once generate_uuid (step built) g).2]
      apply List.map_congr_left
      intro k _
      exact (issued_succ generate_uuid g k).symm

theorem constructAll_length {G : Type} (generate_uuid : G → Identifier × G)
    (prog : List (List ASTNode → Request)) (built : List ASTNode) (g : G) :
    (constructAll generate_uuid prog built g).1.length = built.length + prog.length := by
  induction prog generalizing built g with
  | nil => simp [constructAll]
  | cons step rest ih =>
    rw [constructAll, ih]
    simp [Nat.add_assoc, Nat.add_comm]

theorem issued_counter (g k : Nat) : issued counter g k = g + k := by
  induction k generalizing g with
  | zero => rfl
  | succ k ih =>
    rw [issued_succ, ih]
    show g + 1 + k = g + (k + 1)
    rw [Nat.add_assoc, Nat.add_comm 1 k]

theorem issued_counter_ne (g i j : Nat) (hij : i < j) :
    issued counter g i ≠ issued counter g j := by
  rw [issued_counter, issued_counter]
  exact fun h => Nat.ne_of_lt hij (Nat.add_left_cancel h)

/-- The body loop adds, statement after statement, what that statement's own
run on a fresh printer produces, and stops at the first run that does not
return. -/
theorem accept_body_fresh_runs (show_id : Identifier → String) (body : List ASTNode)
    (p : ASTPrinter) :
    ASTPrinter.accept_body show_id body p
      = body.foldl
          (fun v b => v.bind (fun q =>
            (ASTPrinter.accept show_id b ASTPrinter.new).prepend q.ast_as_string))
          (Visit.done p) := by
  have h := bind_accept_body show_id body (Visit.done p)
  have hf : (fun (v : Visit) b => v.bind (ASTPrinter.accept show_id b))
      = (fun (v : Visit) b => v.bind (fun q =>
          (ASTPrinter.accept show_id b ASTPrinter.new).prepend q.ast_as_string)) := by
    funext v b
    congr 1
    funext q
    exact accept_from show_id b q
  rw [← hf, ← h]
  rfl

/-! ## The claims -/

/-- C1 (the code departs from the claim).  On every kernel whose
`return_value` is null, `ASTPrinter::apply(KernelNode&)` does append the
record, and its ret line reads `void`; but line 371 then executes
`node.return_value->accept(*this)` on the null pointer, so the run ends in a
null dereference instead of returning.  The second part evaluates this on the
kernel `k` with a fresh printer. -/
theorem C1_void_kernel_null_dereference :
    (∀ (show_id : Identifier → String) (ast_id : Identifier) (name : String)
        (scope : KernelScope) (arguments : List VariableNode) (body : List ASTNode)
        (p : ASTPrinter),
        ASTPrinter.apply_kernel show_id (.mk ast_id name scope arguments none body) p
          = .nullDeref ⟨p.ast_as_string
              ++ recordLines (show_id ast_id) name
                  (if scope = KernelScope.GLOBAL then "GLOBAL" else "DEVICE")
                  (arguments.map (fun a => show_id a.ast_id)) "void"
                  (body.map (fun b => show_id b.ast_id))⟩)
    ∧ ASTPrinter.apply_kernel Nat.repr void_kernel ASTPrinter.new
        = .nullDeref ⟨"-- KernelNode \n  id:    7\n  name:  k\n  scope: GLOBAL\n  args:  \n  ret:   void\n  body:  \n"⟩ := by
  refine ⟨?_, by decide⟩
  intro show_id ast_id name scope arguments body p
  rw [apply_kernel_eq, record_none]
  rfl

/-- C2 (refuted as stated).  `create_tensor_node` given an empty shape returns
a Tensor node, of rank 0: construction does not fail and the node built has
no rank of at least 1. -/
theorem C2_empty_shape_is_accepted :
    ∃ n : TensorNode,
      (TensorNode.create_tensor_node counter .TENSOR .FLOAT32 "t" [] 0).1 = ASTNode.tensor n
        ∧ n.shape = [] ∧ ¬ (1 ≤ n.rank) :=
  ⟨⟨0, .TENSOR, .FLOAT32, "t", []⟩, rfl, rfl, by decide⟩

/-- C2 (as amended).  For every kind, element type, name and shape, the empty
shape included, `create_tensor_node` returns a Tensor node carrying exactly the
given shape, so its rank is the length of the given shape (0 for the empty
shape); neither the constructor nor the factory has a failing path. -/
theorem C2_tensor_construction_keeps_any_shape {G : Type}
    (generate_uuid : G → Identifier × G) (vtype : VariableType) (dtype : DataType)
    (name : String) (shape : List Int) (g : G) :
    ∃ n : TensorNode,
      (TensorNode.create_tensor_node generate_uuid vtype dtype name shape g).1 = ASTNode.tensor n
        ∧ n.shape = shape ∧ n.rank = shape.length :=
  ⟨(TensorNode.new generate_uuid vtype dtype name shape g).1, rfl, rfl, rfl⟩

/-- C3.  For every visitor and each of the fourteen concrete classes, `accept`
on a node of that class is exactly one call of the visitor's overload for
that class on that node; and for the spy visitor, whose overloads only log,
`accept` on any node (whatever children it has) adds exactly one entry to the
log: the overload of the node's own class, applied to the node itself. -/
theorem C3_accept_dispatches_to_own_overload :
    (∀ (σ ρ : Type) (visitor : ASTVisitor σ ρ) (s : σ),
        (∀ n, (ASTNode.scalar n).accept visitor s = visitor.apply_scalar n s)
        ∧ (∀ n, (ASTNode.tensor n).accept visitor s = visitor.apply_tensor n s)
        ∧ (∀ n, (ASTNode.kernel n).accept visitor s = visitor.apply_kernel n s)
        ∧ (∀ n, (ASTNode.kernelCall n).accept visitor s = visitor.apply_kernelCall n s)
        ∧ (∀ n, (ASTNode.add n).accept visitor s = visitor.apply_add n s)
        ∧ (∀ n, (ASTNode.sub n).accept visitor s = visitor.apply_sub n s)
        ∧ (∀ n, (ASTNode.mul n).accept visitor s = visitor.apply_mul n s)
        ∧ (∀ n, (ASTNode.div n).accept visitor s = visitor.apply_div n s)
        ∧ (∀ n, (ASTNode.sqrt n).accept visitor s = visitor.apply_sqrt n s)
        ∧ (∀ n, (ASTNode.log2 n).accept visitor s = visitor.apply_log2 n s)
        ∧ (∀ n, (ASTNode.exp2 n).accept visitor s = visitor.apply_exp2 n s)
        ∧ (∀ n, (ASTNode.assignment n).accept visitor s = visitor.apply_assignment n s)
        ∧ (∀ n, (ASTNode.alias n).accept visitor s = visitor.apply_alias n s)
        ∧ (∀ n, (ASTNode.ret n).accept visitor s = visitor.apply_return n s))
    ∧ (∀ (node : ASTNode) (log : List Call),
        node.accept spy log = log ++ [⟨node.kind, node⟩]) := by
  refine ⟨?_, ?_⟩
  · intro σ ρ visitor s
    exact ⟨fun _ => rfl, fun _ => rfl, fun _ => rfl, fun _ => rfl, fun _ => rfl, fun _ => rfl,
      fun _ => rfl, fun _ => rfl, fun _ => rfl, fun _ => rfl, fun _ => rfl, fun _ => rfl,
      fun _ => rfl, fun _ => rfl⟩
  · intro node log
    cases node <;> rfl

/-- C4.  For every kernel with a return value and every printer state,
`apply(KernelNode&)` first extends the buffer by exactly the record (header,
id, name, scope as `GLOBAL`/`DEVICE`, args in order, ret, body in order, each
line closed by a newline) and then runs the body loop from that state; the
buffer the run ends with is the old buffer, then that record, then whatever
the body loop adds. -/
theorem C4_kernel_record_text (show_id : Identifier → String) (ast_id : Identifier)
    (name : String) (scope : KernelScope) (arguments : List VariableNode) (rv : VariableNode)
    (body : List ASTNode) (p : ASTPrinter) :
    ASTPrinter.apply_kernel show_id (.mk ast_id name scope arguments (some rv) body) p
        = ASTPrinter.accept_body show_id body
            ⟨p.ast_as_string
              ++ recordLines (show_id ast_id) name
                  (if scope = KernelScope.GLOBAL then "GLOBAL" else "DEVICE")
                  (arguments.map (fun a => show_id a.ast_id)) (show_id rv.ast_id)
                  (body.map (fun b => show_id b.ast_id))⟩
    ∧ ∃ rest : String,
        (ASTPrinter.apply_kernel show_id (.mk ast_id name scope arguments (some rv) body) p).buffer
          = p.ast_as_string
              ++ recordLines (show_id ast_id) name
                  (if scope = KernelScope.GLOBAL then "GLOBAL" else "DEVICE")
                  (arguments.map (fun a => show_id a.ast_id)) (show_id rv.ast_id)
                  (body.map (fun b => show_id b.ast_id))
              ++ rest := by
  have h : ASTPrinter.apply_kernel show_id (.mk ast_id name scope arguments (some rv) body) p
      = ASTPrinter.accept_body show_id body
          ⟨p.ast_as_string
            ++ recordLines (show_id ast_id) name
                (if scope = KernelScope.GLOBAL then "GLOBAL" else "DEVICE")
                (arguments.map (fun a => show_id a.ast_id)) (show_id rv.ast_id)
                (body.map (fun b => show_id b.ast_id))⟩ := by
    rw [apply_kernel_eq, record_some]
    simp only [ASTPrinter.accept_return_value, accept_variable_done, Visit.bind]
  refine ⟨h, (ASTPrinter.accept_body show_id body ASTPrinter.new).buffer, ?_⟩
  rw [h, accept_body_buffer]

/-- C5.  For every printer state and every node whose class is not
`KernelNode`, dispatching the printer on the node returns with the printer
unchanged: the buffer is the same and nothing else has run. -/
theorem C5_non_kernel_handlers_are_no_ops (show_id : Identifier → String) (node : ASTNode)
    (p : ASTPrinter) (h : node.kind ≠ NodeKind.Kernel) :
    node.accept (ASTPrinter.visitor show_id) p = .done p
      ∧ (node.accept (ASTPrinter.visitor show_id) p).buffer = p.ast_as_string := by
  cases node <;> first | exact ⟨rfl, rfl⟩ | exact absurd rfl h

/-- C5, witnessed on the statement `out = a + b` and a printer holding `xyz`. -/
theorem C5_non_kernel_handlers_are_no_ops_witness :
    assign_out.kind ≠ NodeKind.Kernel
      ∧ assign_out.accept (ASTPrinter.visitor Nat.repr) ⟨"xyz"⟩ = .done ⟨"xyz"⟩
      ∧ (assign_out.accept (ASTPrinter.visitor Nat.repr) ⟨"xyz"⟩).buffer = "xyz" :=
  ⟨by decide, C5_non_kernel_handlers_are_no_ops Nat.repr assign_out ⟨"xyz"⟩ (by decide)⟩

/-- C6.  For every printer state, `reset()` leaves the buffer empty, and
tracing any kernel after `reset()` ends exactly as tracing it with a freshly
constructed printer does, with the same buffer; in particular a printer that
traced the kernel, was reset and traces it again reproduces its first trace. -/
theorem C6_reset_then_trace_is_fresh_trace (show_id : Identifier → String) (p : ASTPrinter)
    (node : KernelNode) :
    p.reset.ast_as_string = ""
      ∧ ASTPrinter.apply_kernel show_id node p.reset
          = ASTPrinter.apply_kernel show_id node ASTPrinter.new
      ∧ (ASTPrinter.apply_kernel show_id node p.reset).buffer
          = (ASTPrinter.apply_kernel show_id node ASTPrinter.new).buffer
      ∧ ASTPrinter.apply_kernel show_id node
            (ASTPrinter.apply_kernel show_id node ASTPrinter.new).printer.reset
          = ASTPrinter.apply_kernel show_id node ASTPrinter.new :=
  ⟨rfl, rfl, rfl, rfl⟩

/-- C7.  For every kernel with a return value whose body statements are all
of a class other than `KernelNode`, dispatching a fresh printer on the kernel
returns with a buffer that is exactly the kernel's own record: its id, name
and scope, the identifiers of its arguments, of its return value and of its
body statements, and nothing else. -/
theorem C7_single_record_for_flat_kernel (show_id : Identifier → String) (ast_id : Identifier)
    (name : String) (scope : KernelScope) (arguments : List VariableNode) (rv : VariableNode)
    (body : List ASTNode) (hbody : ∀ b ∈ body, b.isKernel = false) :
    (ASTNode.kernel (.mk ast_id name scope arguments (some rv) body)).accept
        (ASTPrinter.visitor show_id) ASTPrinter.new
      = .done ⟨recordLines (show_id ast_id) name
          (if scope = KernelScope.GLOBAL then "GLOBAL" else "DEVICE")
          (arguments.map (fun a => show_id a.ast_id)) (show_id rv.ast_id)
          (body.map (fun b => show_id b.ast_id))⟩ := by
  rw [accept_eq_visitor, ASTPrinter.accept, apply_kernel_eq, record_some]
  simp only [ASTPrinter.accept_return_value, accept_variable_done, Visit.bind]
  rw [accept_body_no_kernel show_id body hbody]
  simp [ASTPrinter.new]

/-- C7, witnessed on the scenario kernel `add_vectors` (six nodes: `a`, `b`,
`out`, the Add, the Assignment and the kernel), identifiers shown in decimal. -/
theorem C7_single_record_for_flat_kernel_witness :
    (∀ b ∈ [assign_out], b.isKernel = false)
      ∧ (ASTNode.kernel (.mk 3 "add_vectors" .GLOBAL [.tensor tensor_a, .tensor tensor_b]
            (some (.tensor tensor_out)) [assign_out])).accept
          (ASTPrinter.visitor Nat.repr) ASTPrinter.new
        = .done ⟨recordLines (Nat.repr 3) "add_vectors"
            (if KernelScope.GLOBAL = KernelScope.GLOBAL then "GLOBAL" else "DEVICE")
            ([VariableNode.tensor tensor_a, .tensor tensor_b].map (fun a => Nat.repr a.ast_id))
            (Nat.repr (VariableNode.tensor tensor_out).ast_id)
            ([assign_out].map (fun b => Nat.repr b.ast_id))⟩ :=
  ⟨by simp [assign_out, ASTNode.isKernel],
    C7_single_record_for_flat_kernel Nat.repr 3 "add_vectors" .GLOBAL
      [.tensor tensor_a, .tensor tensor_b] (.tensor tensor_out) [assign_out]
      (by simp [assign_out, ASTNode.isKernel])⟩

/-- The text of the `add_vectors` trace: one record, seven lines. -/
theorem add_vectors_trace :
    ASTPrinter.trace Nat.repr (.kernel add_vectors)
      = "-- KernelNode \n  id:    3\n  name:  add_vectors\n  scope: GLOBAL\n  args:  0, 1, \n  ret:   2\n  body:  5, \n" := by
  decide

/-- C8.  Every construction function draws exactly one identifier from the
generator (through `ASTNode::ASTNode()`) and stores it as the node's `ast_id`;
hence in a run of `N` constructions whose first `N` generator results are
pairwise different, the `N` nodes built carry `N` pairwise different
identifiers. -/
theorem C8_constructed_identifiers_distinct {G : Type} (generate_uuid : G → Identifier × G)
    (g0 : G) (prog : List (List ASTNode → Request))
    (hfresh : ∀ i j, i < j → j < prog.length →
      issued generate_uuid g0 i ≠ issued generate_uuid g0 j) :
    (∀ (req : Request) (g : G),
        (construct generate_uuid req g).1.ast_id = (ASTNode.init generate_uuid g).1
          ∧ (construct generate_uuid req g).2 = (ASTNode.init generate_uuid g).2
          ∧ ASTNode.init generate_uuid g = generate_uuid g)
      ∧ (constructAll generate_uuid prog [] g0).1.length = prog.length
      ∧ ((constructAll generate_uuid prog [] g0).1.map ASTNode.ast_id).Nodup := by
  refine ⟨fun req g => ?_, ?_, ?_⟩
  · exact ⟨(construct_draws_once generate_uuid req g).1,
      (construct_draws_once generate_uuid req g).2, rfl⟩
  · simp [constructAll_length]
  · rw [constructAll_ids, List.map_nil, List.nil_append]
    refine List.Nodup.map_on ?_ (List.nodup_range prog.length)
    intro i hi j hj hij
    rw [List.mem_range] at hi hj
    rcases Nat.lt_trichotomy i j with hlt | heq | hgt
    · exact absurd hij (hfresh i j hlt hj)
    · exact heq
    · exact absurd hij.symm (hfresh j i hgt hi)

/-- C8, witnessed on the counting generator started at 0 and the run
`sample_run` of four constructions. -/
theorem C8_constructed_identifiers_distinct_witness :
    (∀ i j, i < j → j < sample_run.length → issued counter 0 i ≠ issued counter 0 j)
      ∧ ((∀ (req : Request) (g : Nat),
          (construct counter req g).1.ast_id = (ASTNode.init counter g).1
            ∧ (construct counter req g).2 = (ASTNode.init counter g).2
            ∧ ASTNode.init counter g = counter g)
        ∧ (constructAll counter sample_run [] 0).1.length = sample_run.length
        ∧ ((constructAll counter sample_run [] 0).1.map ASTNode.ast_id).Nodup) :=
  ⟨fun i j hij _ => issued_counter_ne 0 i j hij,
    C8_constructed_identifiers_distinct counter 0 sample_run
      (fun i j hij _ => issued_counter_ne 0 i j hij)⟩

/-- The identifiers handed out in `sample_run`, in construction order. -/
theorem sample_run_ids :
    (constructAll counter sample_run [] 0).1.map ASTNode.ast_id = [0, 1, 2, 3] := by
  decide

/-- For every kernel with a return value, `apply(KernelNode&)` appends
the kernel's record and then dispatches, one after the other, into each
argument in argument order, into the return value, and into each body
statement in body order; each body statement adds to the buffer what its own
run on a fresh printer produces; and when the runs of the body statements
return, the buffer at the end is the old buffer, the kernel's record, and then
the complete trace of each body statement in body order (each nested kernel
contributing its own record followed by the traces of its own body, to any
depth). -/
theorem kernel_run_order (show_id : Identifier → String) (node : KernelNode)
    (rv : VariableNode) (p : ASTPrinter) (hret : node.return_value = some rv) :
    ASTPrinter.apply_kernel show_id node p
        = node.body.foldl (fun v b => v.bind (ASTPrinter.accept show_id b))
            ((node.arguments.foldl (fun (v : Visit) a => v.bind (ASTPrinter.accept_variable a))
                (Visit.done ⟨p.ast_as_string ++ ASTPrinter.record show_id node⟩)).bind
              (ASTPrinter.accept_variable rv))
      ∧ ASTPrinter.apply_kernel show_id node p
        = node.body.foldl
            (fun v b => v.bind (fun q =>
              (ASTPrinter.accept show_id b ASTPrinter.new).prepend q.ast_as_string))
            (Visit.done ⟨p.ast_as_string ++ ASTPrinter.record show_id node⟩)
      ∧ ((∀ b ∈ node.body, (ASTPrinter.accept show_id b ASTPrinter.new).returned = true) →
          ASTPrinter.apply_kernel show_id node p
            = .done ⟨p.ast_as_string ++ ASTPrinter.record show_id node
                ++ String.join (node.body.map (ASTPrinter.trace show_id))⟩) := by
  cases node with
  | mk ast_id name scope arguments return_value body =>
    simp only [KernelNode.return_value] at hret
    subst hret
    simp only [KernelNode.body, KernelNode.arguments]
    have hk : ASTPrinter.apply_kernel show_id (.mk ast_id name scope arguments (some rv) body) p
        = ASTPrinter.accept_body show_id body
            ⟨p.ast_as_string
              ++ ASTPrinter.record show_id (.mk ast_id name scope arguments (some rv) body)⟩ := by
      rw [apply_kernel_eq]
      simp only [ASTPrinter.accept_return_value, accept_variable_done, Visit.bind]
    refine ⟨?_, ?_, ?_⟩
    · rw [ASTPrinter.apply_kernel, bind_accept_body]
      rfl
    · rw [hk, accept_body_fresh_runs]
    · intro hbody
      rw [hk, accept_body_traces show_id body hbody]

/-- The run on the kernel `top` (body: the kernel `mid`, which nests
`leaf`; an Alias; the kernel `side`) and a printer holding `old`: the run
returns with `old`, the record of `top`, and the traces of its three body
statements. -/
theorem kernel_top_run :
    kernel_top.return_value = some (.scalar scalar_x)
      ∧ (∀ b ∈ kernel_top.body, (ASTPrinter.accept Nat.repr b ASTPrinter.new).returned = true)
      ∧ ASTPrinter.apply_kernel Nat.repr kernel_top ⟨"old"⟩
        = .done ⟨"old" ++ ASTPrinter.record Nat.repr kernel_top
            ++ String.join (kernel_top.body.map (ASTPrinter.trace Nat.repr))⟩ :=
  ⟨rfl, by decide,
    (kernel_run_order Nat.repr kernel_top (.scalar scalar_x) ⟨"old"⟩ rfl).2.2
      (by decide)⟩

set_option maxRecDepth 100000 in
/-- The text of the trace of `top`: its record, then the records of `mid` and
of `leaf` (nested in `mid`), then the record of `side`. -/
theorem kernel_top_trace :
    ASTPrinter.trace Nat.repr (.kernel kernel_top)
      = "-- KernelNode \n  id:    14\n  name:  top\n  scope: GLOBAL\n  args:  10, \n  ret:   10\n  body:  12, 15, 13, \n-- KernelNode \n  id:    12\n  name:  mid\n  scope: DEVICE\n  args:  \n  ret:   10\n  body:  11, \n-- KernelNode \n  id:    11\n  name:  leaf\n  scope: DEVICE\n  args:  10, \n  ret:   10\n  body:  \n-- KernelNode \n  id:    13\n  name:  side\n  scope: DEVICE\n  args:  \n  ret:   10\n  body:  \n" := by
  decide

/-- C10.  Each of the fourteen construction functions returns a node of its
own class that carries the identifier just drawn and exactly the fields it was
given, unchanged and in order (a kernel's `body`, which is not a parameter,
starts empty). -/
theorem C10_factories_store_their_arguments {G : Type} (generate_uuid : G → Identifier × G)
    (g : G) :
    (∀ vtype dtype name,
        (ScalarNode.create_scalar_node generate_uuid vtype dtype name g).1
          = .scalar ⟨(generate_uuid g).1, vtype, dtype, name⟩)
    ∧ (∀ vtype dtype name shape,
        (TensorNode.create_tensor_node generate_uuid vtype dtype name shape g).1
          = .tensor ⟨(generate_uuid g).1, vtype, dtype, name, shape⟩)
    ∧ (∀ name scope arguments return_value,
        (KernelNode.create_kernel_node generate_uuid name scope arguments return_value g).1
          = .kernel (.mk (generate_uuid g).1 name scope arguments return_value []))
    ∧ (∀ kernel arguments,
        (KernelCallNode.create_kernelcall_node generate_uuid kernel arguments g).1
          = .kernelCall (.mk (generate_uuid g).1 kernel arguments))
    ∧ (∀ lhs rhs,
        (AddNode.create_add_node generate_uuid lhs rhs g).1
          = .add (.mk (generate_uuid g).1 lhs rhs))
    ∧ (∀ lhs rhs,
        (SubNode.create_sub_node generate_uuid lhs rhs g).1
          = .sub (.mk (generate_uuid g).1 lhs rhs))
    ∧ (∀ lhs rhs,
        (MulNode.create_mul_node generate_uuid lhs rhs g).1
          = .mul (.mk (generate_uuid g).1 lhs rhs))
    ∧ (∀ lhs rhs,
        (DivNode.create_div_node generate_uuid lhs rhs g).1
          = .div (.mk (generate_uuid g).1 lhs rhs))
    ∧ (∀ x, (SqrtNode.create_sqrt_node generate_uuid x g).1 = .sqrt (.mk (generate_uuid g).1 x))
    ∧ (∀ x, (Log2Node.create_log2_node generate_uuid x g).1 = .log2 (.mk (generate_uuid g).1 x))
    ∧ (∀ x, (Exp2Node.create_exp2_node generate_uuid x g).1 = .exp2 (.mk (generate_uuid g).1 x))
    ∧ (∀ trg src,
        (AssignmentNode.create_assignment_node generate_uuid trg src g).1
          = .assignment (.mk (generate_uuid g).1 trg src))
    ∧ (∀ src,
        (AliasNode.create_alias_node generate_uuid src g).1
          = .alias (.mk (generate_uuid g).1 src))
    ∧ (∀ return_value,
        (ReturnNode.create_node generate_uuid return_value g).1
          = .ret (.mk (generate_uuid g).1 return_value)) :=
  ⟨fun _ _ _ => rfl, fun _ _ _ _ => rfl, fun _ _ _ _ => rfl, fun _ _ => rfl, fun _ _ => rfl,
    fun _ _ => rfl, fun _ _ => rfl, fun _ _ => rfl, fun _ => rfl, fun _ => rfl, fun _ => rfl,
    fun _ _ => rfl, fun _ => rfl, fun _ => rfl⟩

/-- A kernel run from any printer state is the run from a fresh printer with
the old buffer put in front. -/
theorem apply_kernel_from (show_id : Identifier → String) (node : KernelNode)
    (p : ASTPrinter) :
    ASTPrinter.apply_kernel show_id node p
      = (ASTPrinter.apply_kernel show_id node ASTPrinter.new).prepend p.ast_as_string := by
  have h := apply_kernel_frame show_id node p.ast_as_string ""
  simpa [ASTPrinter.new] using h

/-- C11.  Tracing only appends.  For every printer state and every kernel
whose trace on a fresh printer succeeds, tracing it from that state returns
with the old buffer followed by the fresh-printer trace: the old buffer is
kept as the beginning and what is added does not depend on it.  Hence tracing
`k1` and then `k2` without a reset gives the fresh-printer trace of `k1`
followed by the fresh-printer trace of `k2` (after whatever the buffer held
before). -/
theorem C11_tracing_appends_fresh_trace (show_id : Identifier → String)
    (k1 k2 : KernelNode) (p q1 q2 : ASTPrinter)
    (h1 : ASTPrinter.apply_kernel show_id k1 ASTPrinter.new = .done q1)
    (h2 : ASTPrinter.apply_kernel show_id k2 ASTPrinter.new = .done q2) :
    ASTPrinter.apply_kernel show_id k1 p = .done ⟨p.ast_as_string ++ q1.ast_as_string⟩
      ∧ (ASTPrinter.apply_kernel show_id k1 p).buffer
          = p.ast_as_string ++ ASTPrinter.trace show_id (.kernel k1)
      ∧ (ASTPrinter.apply_kernel show_id k1 p).bind (ASTPrinter.apply_kernel show_id k2)
          = .done ⟨p.ast_as_string ++ q1.ast_as_string ++ q2.ast_as_string⟩
      ∧ (ASTPrinter.apply_kernel show_id k1 ASTPrinter.new).bind
            (ASTPrinter.apply_kernel show_id k2)
          = .done ⟨ASTPrinter.trace show_id (.kernel k1)
              ++ ASTPrinter.trace show_id (.kernel k2)⟩ := by
  have e1 : ASTPrinter.apply_kernel show_id k1 p
      = .done ⟨p.ast_as_string ++ q1.ast_as_string⟩ := by
    rw [apply_kernel_from, h1]
    rfl
  have t1 : ASTPrinter.trace show_id (.kernel k1) = q1.ast_as_string := by
    simp [ASTPrinter.trace, ASTPrinter.accept, h1, Visit.buffer, Visit.printer]
  have t2 : ASTPrinter.trace show_id (.kernel k2) = q2.ast_as_string := by
    simp [ASTPrinter.trace, ASTPrinter.accept, h2, Visit.buffer, Visit.printer]
  refine ⟨e1, ?_, ?_, ?_⟩
  · rw [e1, t1]
    rfl
  · rw [e1]
    show ASTPrinter.apply_kernel show_id k2 ⟨p.ast_as_string ++ q1.ast_as_string⟩ = _
    rw [apply_kernel_from, h2]
    rfl
  · rw [h1, t1, t2]
    show ASTPrinter.apply_kernel show_id k2 q1 = _
    rw [apply_kernel_from, h2]
    rfl

/-- C11, witnessed on `add_vectors` followed by `mid`, starting from a printer
holding `old`. -/
theorem C11_tracing_appends_fresh_trace_witness :
    ASTPrinter.apply_kernel Nat.repr add_vectors ASTPrinter.new
        = .done ⟨ASTPrinter.trace Nat.repr (.kernel add_vectors)⟩
      ∧ ASTPrinter.apply_kernel Nat.repr kernel_mid ASTPrinter.new
        = .done ⟨ASTPrinter.trace Nat.repr (.kernel kernel_mid)⟩
      ∧ (ASTPrinter.apply_kernel Nat.repr add_vectors ⟨"old"⟩).bind
            (ASTPrinter.apply_kernel Nat.repr kernel_mid)
          = .done ⟨"old" ++ ASTPrinter.trace Nat.repr (.kernel add_vectors)
              ++ ASTPrinter.trace Nat.repr (.kernel kernel_mid)⟩ :=
  ⟨rfl, rfl,
    (C11_tracing_appends_fresh_trace Nat.repr add_vectors kernel_mid ⟨"old"⟩
      ⟨ASTPrinter.trace Nat.repr (.kernel add_vectors)⟩
      ⟨ASTPrinter.trace Nat.repr (.kernel kernel_mid)⟩ rfl rfl).2.2.1⟩

/-- C12.  The variable factories store the kind tag they are given without
comparing it with the class being built: for every kind, `create_scalar_node`
returns a Scalar node and `create_tensor_node` a Tensor node whose `vtype` is
that kind; in particular `create_scalar_node(TENSOR, FLOAT32, "s")` succeeds
and yields a Scalar node whose kind is TENSOR. -/
theorem C12_kind_tag_is_not_tied_to_class :
    (∀ (G : Type) (generate_uuid : G → Identifier × G) (g : G) (vtype : VariableType)
        (dtype : DataType) (name : String),
        ∃ n : ScalarNode,
          (ScalarNode.create_scalar_node generate_uuid vtype dtype name g).1 = ASTNode.scalar n
            ∧ n.vtype = vtype)
    ∧ (∀ (G : Type) (generate_uuid : G → Identifier × G) (g : G) (vtype : VariableType)
        (dtype : DataType) (name : String) (shape : List Int),
        ∃ n : TensorNode,
          (TensorNode.create_tensor_node generate_uuid vtype dtype name shape g).1
              = ASTNode.tensor n
            ∧ n.vtype = vtype)
    ∧ (ScalarNode.create_scalar_node counter .TENSOR .FLOAT32 "s" 0).1
        = ASTNode.scalar ⟨0, .TENSOR, .FLOAT32, "s"⟩
    ∧ ((ScalarNode.create_scalar_node counter .TENSOR .FLOAT32 "s" 0).1).kind = NodeKind.Scalar :=
  ⟨fun _ generate_uuid g vtype dtype name =>
      ⟨(ScalarNode.new generate_uuid vtype dtype name g).1, rfl, rfl⟩,
    fun _ generate_uuid g vtype dtype name shape =>
      ⟨(TensorNode.new generate_uuid vtype dtype name shape g).1, rfl, rfl⟩,
    rfl, rfl⟩

/-- On a kernel without return value the run appends the record and ends in
the null dereference of line 371. -/
theorem apply_kernel_void (show_id : Identifier → String) (ast_id : Identifier) (name : String)
    (scope : KernelScope) (arguments : List VariableNode) (body : List ASTNode)
    (p : ASTPrinter) :
    ASTPrinter.apply_kernel show_id (.mk ast_id name scope arguments none body) p
      = .nullDeref ⟨p.ast_as_string
          ++ ASTPrinter.record show_id (.mk ast_id name scope arguments none body)⟩ := by
  rw [apply_kernel_eq]
  rfl

/-- The body loop over a concatenation is the loop over the first part
followed, if that returns, by the loop over the second. -/
theorem accept_body_append (show_id : Identifier → String) (pre post : List ASTNode)
    (p : ASTPrinter) :
    ASTPrinter.accept_body show_id (pre ++ post) p
      = (ASTPrinter.accept_body show_id pre p).bind (ASTPrinter.accept_body show_id post) := by
  induction pre generalizing p with
  | nil => rfl
  | cons b rest ih =>
    rw [List.cons_append, ASTPrinter.accept_body, ASTPrinter.accept_body]
    cases ASTPrinter.accept show_id b p with
    | done q => exact ih q
    | nullDeref q => rfl

/-- A kernel with a return value whose body reaches a kernel without return
value, after statements whose runs return, stops there: the buffer holds the
old text, the outer record, the traces of the earlier statements and the
record of the kernel without return value; the statements after it are never
dispatched into. -/
theorem kernel_run_stops_at_void (show_id : Identifier → String) (ast_id : Identifier)
    (name : String) (scope : KernelScope) (arguments : List VariableNode) (rv : VariableNode)
    (pre post : List ASTNode) (vid : Identifier) (vname : String) (vscope : KernelScope)
    (varguments : List VariableNode) (vbody : List ASTNode) (p : ASTPrinter)
    (hpre : ∀ b ∈ pre, (ASTPrinter.accept show_id b ASTPrinter.new).returned = true) :
    ASTPrinter.apply_kernel show_id
        (.mk ast_id name scope arguments (some rv)
          (pre ++ ASTNode.kernel (.mk vid vname vscope varguments none vbody) :: post)) p
      = .nullDeref ⟨p.ast_as_string
          ++ ASTPrinter.record show_id
              (.mk ast_id name scope arguments (some rv)
                (pre ++ ASTNode.kernel (.mk vid vname vscope varguments none vbody) :: post))
          ++ String.join (pre.map (ASTPrinter.trace show_id))
          ++ ASTPrinter.record show_id (.mk vid vname vscope varguments none vbody)⟩ := by
  rw [apply_kernel_eq]
  simp only [ASTPrinter.accept_return_value, accept_variable_done, Visit.bind]
  rw [accept_body_append, accept_body_traces show_id pre hpre]
  simp only [Visit.bind]
  rw [ASTPrinter.accept_body, ASTPrinter.accept, apply_kernel_void]
  rfl

/-- C9 (the code departs from the claim).  A kernel with a return value does
append its record and dispatch into its arguments, its return value and its
body statements in order, but the dispatch into a body statement that is a
kernel without return value ends in the null dereference of line 371 (the
defect of C1): the statements after it are never dispatched into and the run
does not return.  First part: for every kernel with a return value whose
first body statement is a kernel without return value, the run ends in that
null dereference with only the two records in the buffer, whatever follows in
the body.  Second part: on the kernel `outer` (body: `leaf`, the kernel `k`
without return value, `side`) the run ends in the null dereference after the
records of `outer`, `leaf` and `k`; the record of `side` is never written, so
the result is not the outer record followed by the traces of the three nested
kernels. -/
theorem C9_nested_void_kernel_stops_the_recursion :
    (∀ (show_id : Identifier → String) (ast_id : Identifier) (name : String)
        (scope : KernelScope) (arguments : List VariableNode) (rv : VariableNode)
        (post : List ASTNode) (vid : Identifier) (vname : String) (vscope : KernelScope)
        (varguments : List VariableNode) (vbody : List ASTNode) (p : ASTPrinter),
        ASTPrinter.apply_kernel show_id
            (.mk ast_id name scope arguments (some rv)
              (ASTNode.kernel (.mk vid vname vscope varguments none vbody) :: post)) p
          = .nullDeref ⟨p.ast_as_string
              ++ ASTPrinter.record show_id
                  (.mk ast_id name scope arguments (some rv)
                    (ASTNode.kernel (.mk vid vname vscope varguments none vbody) :: post))
              ++ ASTPrinter.record show_id (.mk vid vname vscope varguments none vbody)⟩)
    ∧ kernel_outer.return_value = some (.scalar scalar_x)
    ∧ ASTPrinter.apply_kernel Nat.repr kernel_outer ASTPrinter.new
        = .nullDeref ⟨"-- KernelNode \n  id:    20\n  name:  outer\n  scope: GLOBAL\n  args:  10, \n  ret:   10\n  body:  11, 7, 13, \n-- KernelNode \n  id:    11\n  name:  leaf\n  scope: DEVICE\n  args:  10, \n  ret:   10\n  body:  \n-- KernelNode \n  id:    7\n  name:  k\n  scope: GLOBAL\n  args:  \n  ret:   void\n  body:  \n"⟩
    ∧ (ASTPrinter.apply_kernel Nat.repr kernel_outer ASTPrinter.new).returned = false
    ∧ ASTPrinter.apply_kernel Nat.repr kernel_outer ASTPrinter.new
        ≠ .done ⟨ASTPrinter.record Nat.repr kernel_outer
            ++ String.join (kernel_outer.body.map (ASTPrinter.trace Nat.repr))⟩
    ∧ (ASTPrinter.apply_kernel Nat.repr kernel_outer ASTPrinter.new).buffer.length
        < (ASTPrinter.record Nat.repr kernel_outer
            ++ String.join (kernel_outer.body.map (ASTPrinter.trace Nat.repr))).length := by
  have hrun : ASTPrinter.apply_kernel Nat.repr kernel_outer ASTPrinter.new
      = .nullDeref ⟨"-- KernelNode \n  id:    20\n  name:  outer\n  scope: GLOBAL\n  args:  10, \n  ret:   10\n  body:  11, 7, 13, \n-- KernelNode \n  id:    11\n  name:  leaf\n  scope: DEVICE\n  args:  10, \n  ret:   10\n  body:  \n-- KernelNode \n  id:    7\n  name:  k\n  scope: GLOBAL\n  args:  \n  ret:   void\n  body:  \n"⟩ := by
    set_option maxRecDepth 100000 in rfl
  refine ⟨?_, rfl, hrun, ?_, ?_, ?_⟩
  · intro show_id ast_id name scope arguments rv post vid vname vscope varguments vbody p
    have h := kernel_run_stops_at_void show_id ast_id name scope arguments rv [] post vid vname
      vscope varguments vbody p (fun b hb => absurd hb (List.not_mem_nil b))
    simpa [String.join] using h
  · rw [hrun]
    rfl
  · rw [hrun]
    exact fun h => Visit.noConfusion h
  · rw [hrun]
    set_option maxRecDepth 100000 in decide

end TinyGPULang
